/-
Verification of the order-construction pipeline of a GMX trading SDK
(order.py, order_argument_parser.py, create_increase_order.py,
create_decrease_order.py, approve_token_for_spend.py) against its
natural-language specification.

The Python code is shallowly embedded: numeric computations are modelled
over ℚ/ℤ/ℕ, fallible code over Except, and the external collaborators
(ledger gateway, token registry, price oracle, gas-limit table) as
explicit environment records of pure functions.
-/
import Mathlib

namespace Gmx

/-- Truncation toward zero of a rational, the behaviour of Python int()
applied to a numeric value. -/
def pyInt (q : ℚ) : ℤ := if 0 ≤ q then ⌊q⌋ else ⌈q⌉

/-- Modelled from the spec: the PRECISION constant is imported by order.py
from gmx_utils, but the provided gmx_utils source does not define it; the
spec fixes the acceptable-price scale exponent as token_decimals − 30,
so PRECISION = 30. -/
def PRECISION : ℤ := 30

/-- Median of a two-element list as computed by np.median in
Order._get_prices (order.py lines 125–128): the mean of the two values. -/
def median_of_two (a b : ℚ) : ℚ := (a + b) / 2

/-- The slippage-adjustment branch of Order._get_prices
(order.py lines 131–136): open orders move the price with the position
direction, close orders against it, and any other intent (the swap case)
yields 0. -/
def slippage_adjusted (is_open is_close is_long : Bool) (price slippage_percent : ℚ) : ℚ :=
  if is_open then
    (if is_long then price * (1 + slippage_percent) else price * (1 - slippage_percent))
  else if is_close then
    (if is_long then price * (1 - slippage_percent) else price * (1 + slippage_percent))
  else 0

/-- Exact-arithmetic value of the expression
int(slippage) * 10 ** (decimals - PRECISION) from order.py line 140.
Python evaluates this expression exactly in unbounded integers when
decimals ≥ PRECISION, and in IEEE-754 binary floating point when
decimals < PRECISION (an int raised to a negative power is a float). -/
def acceptable_price_usd (decimals : ℤ) (slip_int : ℤ) : ℚ :=
  (slip_int : ℚ) * (10 : ℚ) ^ (decimals - PRECISION)

/-- Order._get_prices (order.py lines 119–143): returns the median price,
the truncated slippage-adjusted price, and the acceptable price scaled by
10^(decimals − PRECISION). -/
def get_prices (decimals : ℤ) (max_price min_price : ℚ) (is_long : Bool)
    (slippage_percent : ℚ) (is_open is_close : Bool) : ℚ × ℤ × ℚ :=
  let price := median_of_two max_price min_price
  let slip := slippage_adjusted is_open is_close is_long price slippage_percent
  (price, pyInt slip, acceptable_price_usd decimals (pyInt slip))

/-- The set of values an IEEE-754 binary floating-point number can take:
every finite double is m · 2^e for integers m and e. -/
def IsFloatRepresentable (q : ℚ) : Prop :=
  ∃ m e : ℤ, q = (m : ℚ) * (2 : ℚ) ^ e

/-- The two order subclasses present in the source: IncreaseOrder
(create_increase_order.py) and DecreaseOrder (create_decrease_order.py). -/
inductive OrderClass where
  | increaseOrder
  | decreaseOrder
deriving DecidableEq, Repr

/-- The Gas Limit Table key selected by determine_gas_limits of each
subclass (create_increase_order.py line 53, create_decrease_order.py
line 49). -/
def determine_gas_limits_key : OrderClass → String
  | OrderClass.increaseOrder => "increase_order"
  | OrderClass.decreaseOrder => "decrease_order"

/-- The field dictionary handed to build_transaction in
Order._submit_transaction (order.py lines 97–104). -/
structure TxFields where
  value : ℤ
  chainId : ℕ
  gas : ℕ
  maxFeePerGas : ℤ
  maxPriorityFeePerGas : ℕ
  nonce : ℕ
deriving DecidableEq, Repr

/-- Observable steps taken by Order._submit_transaction. -/
inductive SubmitAction where
  | builtRaw (tx : TxFields)
  | signedTx (tx : TxFields)
  | sentRaw (tx : TxFields)
  | errorLogged (msg : String)
deriving DecidableEq, Repr

/-- Caller-visible outcome of a Python call: either a normal return or an
uncaught exception. -/
inductive PyResult (α : Type) where
  | returns (a : α)
  | raises (msg : String)
deriving DecidableEq, Repr

/-- External collaborators used by Order._submit_transaction: the ledger
gateway (nonce read, chain id), the Gas Limit Table, and the possible
failures of the build/sign/send collaborator calls (none means the call
succeeds, some msg means it raises msg). -/
structure SubmitEnv where
  nonce : ℕ
  chainId : ℕ
  gasTable : String → ℕ
  buildFail : Option String := none
  signFail : Option String := none
  sendFail : Option String := none

/-- The raw transaction dictionary built at order.py lines 97–104: the gas
ceiling is the kind-specific gas-limit estimator evaluated twice and
summed, maxFeePerGas is truncated with int(), maxPriorityFeePerGas is 0,
and the nonce is the freshly read account nonce. -/
def build_raw_txn (cls : OrderClass) (value_amount : ℤ) (max_fee_per_gas : ℚ)
    (env : SubmitEnv) : TxFields :=
  let g := env.gasTable (determine_gas_limits_key cls)
  { value := value_amount
    chainId := env.chainId
    gas := g + g
    maxFeePerGas := pyInt max_fee_per_gas
    maxPriorityFeePerGas := 0
    nonce := env.nonce }

/-- Order._submit_transaction (order.py lines 81–117): reads the nonce,
builds the raw transaction, and — only when debug_mode is off — signs and
broadcasts it; the entire try block is guarded by an except clause that
prints the error and returns normally, so the function always returns. -/
def submit_transaction (cls : OrderClass) (debug_mode : Bool) (value_amount : ℤ)
    (max_fee_per_gas : ℚ) (env : SubmitEnv) : PyResult (List SubmitAction) :=
  let raw := build_raw_txn cls value_amount max_fee_per_gas env
  PyResult.returns
    (match env.buildFail with
     | some msg => [SubmitAction.errorLogged msg]
     | none =>
       if debug_mode then
         [SubmitAction.builtRaw raw]
       else
         match env.signFail with
         | some msg => [SubmitAction.builtRaw raw, SubmitAction.errorLogged msg]
         | none =>
           match env.sendFail with
           | some msg => [SubmitAction.builtRaw raw, SubmitAction.signedTx raw,
                          SubmitAction.errorLogged msg]
           | none => [SubmitAction.builtRaw raw, SubmitAction.signedTx raw,
                      SubmitAction.sentRaw raw])

/-- A concrete environment in which the gateway rejects the broadcast. -/
def envSendRejected : SubmitEnv :=
  { nonce := 7
    chainId := 42161
    gasTable := fun _ => 1000000
    sendFail := some "nonce too low" }

/-- The raw transaction built in envSendRejected. -/
def txSendRejected : TxFields :=
  { value := 0
    chainId := 42161
    gas := 2000000
    maxFeePerGas := 5
    maxPriorityFeePerGas := 0
    nonce := 7 }

/-- A concrete environment in which every collaborator call succeeds. -/
def envAllOk : SubmitEnv :=
  { nonce := 7
    chainId := 42161
    gasTable := fun _ => 1000000 }

/-- The raw transaction built in envAllOk and envSendRejected. -/
def txAllOk : TxFields :=
  { value := 0
    chainId := 42161
    gas := 2000000
    maxFeePerGas := 5
    maxPriorityFeePerGas := 0
    nonce := 7 }

/-- The three order kinds the argument parser supports
(order_argument_parser.py lines 10–24). -/
inductive OrderKind where
  | increase
  | decrease
  | swap
deriving DecidableEq, Repr

/-- The dictionary keys the parser works with
(order_argument_parser.py lines 30–76). -/
inductive FieldKey where
  | chain
  | index_token_address
  | market_key
  | start_token_address
  | out_token_address
  | collateral_address
  | swap_path
  | is_long
  | size_delta_usd
  | initial_collateral_delta
  | slippage_percent
deriving DecidableEq, Repr

/-- The user-supplied parameters dictionary: every key optional, since the
parser derives missing ones. size_delta is the integer field written by
_format_size_info. -/
structure Params where
  chain : Option String := none
  index_token_symbol : Option String := none
  index_token_address : Option String := none
  market_key : Option String := none
  start_token_address : Option String := none
  out_token_address : Option String := none
  collateral_address : Option String := none
  swap_path : Option (List String) := none
  is_long : Option Bool := none
  size_delta_usd : Option ℚ := none
  initial_collateral_delta : Option ℚ := none
  slippage_percent : Option ℚ := none
  size_delta : Option ℤ := none
deriving DecidableEq, Repr

/-- required_keys per order kind, in source order
(order_argument_parser.py lines 30–63); chain is first in each list. -/
def required_keys : OrderKind → List FieldKey
  | OrderKind.increase =>
      [FieldKey.chain, FieldKey.index_token_address, FieldKey.market_key,
       FieldKey.start_token_address, FieldKey.collateral_address,
       FieldKey.swap_path, FieldKey.is_long, FieldKey.size_delta_usd,
       FieldKey.initial_collateral_delta, FieldKey.slippage_percent]
  | OrderKind.decrease =>
      [FieldKey.chain, FieldKey.index_token_address, FieldKey.market_key,
       FieldKey.start_token_address, FieldKey.collateral_address,
       FieldKey.is_long, FieldKey.size_delta_usd,
       FieldKey.initial_collateral_delta, FieldKey.slippage_percent]
  | OrderKind.swap =>
      [FieldKey.chain, FieldKey.start_token_address, FieldKey.out_token_address,
       FieldKey.initial_collateral_delta, FieldKey.swap_path,
       FieldKey.slippage_percent]

/-- Whether the dictionary contains a key (`key in parameters_dict`). -/
def has_key (p : Params) : FieldKey → Bool
  | FieldKey.chain => p.chain.isSome
  | FieldKey.index_token_address => p.index_token_address.isSome
  | FieldKey.market_key => p.market_key.isSome
  | FieldKey.start_token_address => p.start_token_address.isSome
  | FieldKey.out_token_address => p.out_token_address.isSome
  | FieldKey.collateral_address => p.collateral_address.isSome
  | FieldKey.swap_path => p.swap_path.isSome
  | FieldKey.is_long => p.is_long.isSome
  | FieldKey.size_delta_usd => p.size_delta_usd.isSome
  | FieldKey.initial_collateral_delta => p.initial_collateral_delta.isSome
  | FieldKey.slippage_percent => p.slippage_percent.isSome

/-- Exceptions the resolver can raise. missingChain models the message
"Please pass chain name in parameters dictionary!"; collateralTooLow models
"Position size must be backed by more than 2 dollars of collateral!";
keyError models a Python KeyError on a dictionary access; lookupFailed a
failed registry lookup; handlerError any failure of a derivation method
whose body is not part of the provided source. -/
inductive ResolveErr where
  | missingChain
  | missingIndexTokenInfo
  | keyError (key : String)
  | lookupFailed (what : String)
  | collateralTooLow
  | handlerError (msg : String)
deriving DecidableEq, Repr

/-- External collaborators and source-omitted methods used by the parser.
tokensDecimals, tokenAddressBySymbol, marketKeyByIndex, oracleMax and
oracleMin model the Token/Market Registry and the Price Oracle Feed
(chain → address/symbol → value). The handleMissing* fields and
calcPositionSize / checkMaxLeverage model derivation methods the provided
order_argument_parser.py names but does not include
(its lines 173–174 say the remaining handlers are similar); the theorems
below hold for every behaviour of these methods. -/
structure ResolverEnv where
  tokensDecimals : String → String → Option ℕ
  tokenAddressBySymbol : String → String → Option String
  marketKeyByIndex : String → Option String
  oracleMax : String → String → Option ℚ
  oracleMin : String → String → Option ℚ
  handleMissingStart : Params → Except ResolveErr Params
  handleMissingOut : Params → Except ResolveErr Params
  handleMissingCollateral : Params → Except ResolveErr Params
  handleMissingSwapPath : Params → Except ResolveErr Params
  handleMissingIsLong : Params → Except ResolveErr Params
  handleMissingSlippage : Params → Except ResolveErr Params
  calcPositionSize : Params → Except ResolveErr Params
  checkMaxLeverage : Params → Except ResolveErr Params

/-- OrderArgumentParser._handle_missing_index_token_address
(order_argument_parser.py lines 138–154): the BTC symbol is aliased to
WBTC.b before the registry lookup. -/
def handle_missing_index_token_address (env : ResolverEnv) (p : Params) :
    Except ResolveErr Params :=
  match p.index_token_symbol with
  | none => Except.error ResolveErr.missingIndexTokenInfo
  | some sym =>
    let sym2 := if sym = "BTC" then "WBTC.b" else sym
    match p.chain with
    | none => Except.error (ResolveErr.keyError "chain")
    | some chain =>
      match env.tokenAddressBySymbol chain sym2 with
      | none => Except.error (ResolveErr.lookupFailed sym2)
      | some addr => Except.ok { p with index_token_address := some addr }

/-- OrderArgumentParser._handle_missing_market_key
(order_argument_parser.py lines 156–171): one fixed index-token address is
substituted before the market lookup. -/
def handle_missing_market_key (env : ResolverEnv) (p : Params) :
    Except ResolveErr Params :=
  match p.index_token_address with
  | none => Except.error (ResolveErr.keyError "index_token_address")
  | some addr =>
    let addr2 := if addr = "0x2f2a2543B76A4166549F7aaB2e75Bef0aefC5B0f"
      then "0x47904963fc8b2340414262125aF798B9655E58Cd" else addr
    match env.marketKeyByIndex addr2 with
    | none => Except.error (ResolveErr.lookupFailed addr2)
    | some mk => Except.ok { p with market_key := some mk }

/-- The missing_base_key_methods dispatch table
(order_argument_parser.py lines 66–76): size_delta_usd and
initial_collateral_delta have no handler, so the loop skips them. -/
def dispatch_missing (env : ResolverEnv) (k : FieldKey) (p : Params) :
    Except ResolveErr Params :=
  match k with
  | FieldKey.chain => Except.error ResolveErr.missingChain
  | FieldKey.index_token_address => handle_missing_index_token_address env p
  | FieldKey.market_key => handle_missing_market_key env p
  | FieldKey.start_token_address => env.handleMissingStart p
  | FieldKey.out_token_address => env.handleMissingOut p
  | FieldKey.collateral_address => env.handleMissingCollateral p
  | FieldKey.swap_path => env.handleMissingSwapPath p
  | FieldKey.is_long => env.handleMissingIsLong p
  | FieldKey.slippage_percent => env.handleMissingSlippage p
  | FieldKey.size_delta_usd => Except.ok p
  | FieldKey.initial_collateral_delta => Except.ok p

/-- The handler loop of process_parameters_dictionary
(order_argument_parser.py lines 96–99), run over the missing keys in
required-key order; the first raising handler aborts the run. -/
def resolve_missing_loop (env : ResolverEnv) :
    List FieldKey → Params → Except ResolveErr Params
  | [], p => Except.ok p
  | k :: rest, p =>
    match dispatch_missing env k p with
    | Except.error e => Except.error e
    | Except.ok p2 => resolve_missing_loop env rest p2

/-- Missing-key determination plus the handler loop
(order_argument_parser.py lines 90–99): the missing list is computed once
from the incoming dictionary, in required-key order. -/
def resolve_missing (env : ResolverEnv) (kind : OrderKind) (p : Params) :
    Except ResolveErr Params :=
  resolve_missing_loop env
    ((required_keys kind).filter (fun k => !(has_key p k))) p

/-- OrderArgumentParser._calculate_initial_collateral_usd
(order_argument_parser.py lines 176–200): the median of the oracle bid/ask
for the start token, scaled by 10^(token_decimals − 30), times the
collateral delta. -/
def calculate_initial_collateral_usd (env : ResolverEnv) (p : Params) :
    Except ResolveErr ℚ :=
  match p.initial_collateral_delta with
  | none => Except.error (ResolveErr.keyError "initial_collateral_delta")
  | some icd =>
    match p.chain with
    | none => Except.error (ResolveErr.keyError "chain")
    | some chain =>
      match p.start_token_address with
      | none => Except.error (ResolveErr.keyError "start_token_address")
      | some start =>
        match env.oracleMax chain start, env.oracleMin chain start with
        | some maxP, some minP =>
          match env.tokensDecimals chain start with
          | none => Except.error (ResolveErr.keyError start)
          | some d =>
            Except.ok (median_of_two maxP minP * (10 : ℚ) ^ ((d : ℤ) - 30) * icd)
        | _, _ => Except.error (ResolveErr.keyError start)

/-- The stages of process_parameters_dictionary that run before the
collateral check (order_argument_parser.py lines 90–104): the handler loop,
then for non-swap kinds the position-size calculation and maximum-leverage
check (both absent from the provided source, hence abstract). -/
def pre_collateral_stages (env : ResolverEnv) (kind : OrderKind) (p : Params) :
    Except ResolveErr Params :=
  match resolve_missing env kind p with
  | Except.error e => Except.error e
  | Except.ok p1 =>
    if kind = OrderKind.swap then Except.ok p1
    else
      match env.calcPositionSize p1 with
      | Except.error e => Except.error e
      | Except.ok p2 => env.checkMaxLeverage p2

/-- The 2-USD collateral floor for increase orders
(order_argument_parser.py lines 107–111). -/
def collateral_gate (env : ResolverEnv) (p : Params) : Except ResolveErr Params :=
  match calculate_initial_collateral_usd env p with
  | Except.error e => Except.error e
  | Except.ok u =>
    if u < 2 then Except.error ResolveErr.collateralTooLow else Except.ok p

/-- OrderArgumentParser._format_size_info
(order_argument_parser.py lines 202–216): for non-swap kinds size_delta is
set to int(size_delta_usd * 10^30); for every kind
initial_collateral_delta is overwritten in place with
int(initial_collateral_delta * 10^decimals) of the start token. -/
def format_size_info (env : ResolverEnv) (kind : OrderKind) (p : Params) :
    Except ResolveErr Params :=
  let step1 : Except ResolveErr Params :=
    if kind = OrderKind.swap then Except.ok p
    else
      match p.size_delta_usd with
      | none => Except.error (ResolveErr.keyError "size_delta_usd")
      | some usd =>
        Except.ok { p with size_delta := some (pyInt (usd * (10 : ℚ) ^ (30 : ℕ))) }
  match step1 with
  | Except.error e => Except.error e
  | Except.ok p1 =>
    match p1.chain with
    | none => Except.error (ResolveErr.keyError "chain")
    | some chain =>
      match p1.start_token_address with
      | none => Except.error (ResolveErr.keyError "start_token_address")
      | some start =>
        match env.tokensDecimals chain start with
        | none => Except.error (ResolveErr.keyError start)
        | some d =>
          match p1.initial_collateral_delta with
          | none => Except.error (ResolveErr.keyError "initial_collateral_delta")
          | some icd =>
            let icd2 : ℚ := ((pyInt (icd * (10 : ℚ) ^ d) : ℤ) : ℚ)
            Except.ok { p1 with initial_collateral_delta := some icd2 }

/-- OrderArgumentParser.process_parameters_dictionary
(order_argument_parser.py lines 78–117): handler loop, position/leverage
stage for non-swap kinds, collateral floor for increase orders, then the
unconditional formatting step; the mutated dictionary is returned. -/
def process_parameters_dictionary (env : ResolverEnv) (kind : OrderKind)
    (p : Params) : Except ResolveErr Params :=
  match pre_collateral_stages env kind p with
  | Except.error e => Except.error e
  | Except.ok p2 =>
    match (if kind = OrderKind.increase then collateral_gate env p2 else Except.ok p2) with
    | Except.error e => Except.error e
    | Except.ok p3 => format_size_info env kind p3

/-- Per-token chain state read by check_if_approved: the owner's balance
and the current allowance granted to the spender, keyed by token address
(owner and spender are fixed for a run). -/
structure TokenState where
  balanceOf : String → ℤ
  allowanceOf : String → ℤ

/-- The fixed one-entry legacy alias applied before any balance or
allowance query (approve_token_for_spend.py lines 47–49). -/
def remap_token (t : String) : String :=
  if t = "0x47904963fc8b2340414262125aF798B9655E58Cd"
  then "0x2f2a2543B76A4166549F7aaB2e75Bef0aefC5B0f" else t

/-- Exceptions check_if_approved can raise. -/
inductive ApproveErr where
  | insufficientBalance
  | notApproved
deriving DecidableEq, Repr

/-- check_if_approved (approve_token_for_spend.py lines 11–150): remaps the
token, reads the balance and fails when it is below the amount, reads the
allowance, and when the allowance is insufficient either submits one
approval for exactly the requested amount (approve = true; the accepted
approval sets the allowance to that amount) or raises (approve = false).
The result carries the post-call state and the number of approval
transactions submitted. -/
def check_if_approved (st : TokenState) (token : String) (amount : ℤ)
    (approve : Bool) : Except ApproveErr (TokenState × ℕ) :=
  let t := remap_token token
  if st.balanceOf t < amount then Except.error ApproveErr.insufficientBalance
  else
    let allow := st.allowanceOf t
    if allow < amount then
      if approve then
        Except.ok
          ({ st with allowanceOf := fun x => if x = t then amount else st.allowanceOf x }, 1)
      else Except.error ApproveErr.notApproved
    else Except.ok (st, 0)

/-- Resolver environment whose registry and oracle know nothing and whose
source-omitted handlers are identities; used to instantiate universally
quantified theorems. -/
def envResolverStub : ResolverEnv :=
  { tokensDecimals := fun _ _ => none
    tokenAddressBySymbol := fun _ _ => none
    marketKeyByIndex := fun _ => none
    oracleMax := fun _ _ => none
    oracleMin := fun _ _ => none
    handleMissingStart := fun p => Except.ok p
    handleMissingOut := fun p => Except.ok p
    handleMissingCollateral := fun p => Except.ok p
    handleMissingSwapPath := fun p => Except.ok p
    handleMissingIsLong := fun p => Except.ok p
    handleMissingSlippage := fun p => Except.ok p
    calcPositionSize := fun p => Except.ok p
    checkMaxLeverage := fun p => Except.ok p }

/-- The empty request dictionary. -/
def paramsEmpty : Params := {}

/-- A fully-populated increase request whose collateral is worth 1 USD:
oracle bid = ask = 2, token decimals 30, collateral delta 1/2. -/
def paramsLowCollateral : Params :=
  { chain := some "arbitrum"
    index_token_address := some "0xIDX"
    market_key := some "0xMKT"
    start_token_address := some "0xTOK"
    collateral_address := some "0xTOK"
    swap_path := some []
    is_long := some true
    size_delta_usd := some 10
    initial_collateral_delta := some (1/2)
    slippage_percent := some (3/1000) }

/-- Oracle and registry for the low-collateral scenario. -/
def envLowCollateral : ResolverEnv :=
  { envResolverStub with
    tokensDecimals := fun _ _ => some 30
    oracleMax := fun _ _ => some 2
    oracleMin := fun _ _ => some 2 }

/-- A fully-populated increase request for the formatting scenario:
size_delta_usd 1, collateral delta 3, token decimals 0. -/
def paramsFmt : Params :=
  { chain := some "arbitrum"
    index_token_address := some "0xIDX"
    market_key := some "0xMKT"
    start_token_address := some "0xTOK"
    collateral_address := some "0xTOK"
    swap_path := some []
    is_long := some true
    size_delta_usd := some 1
    initial_collateral_delta := some 3
    slippage_percent := some (3/1000) }

/-- Registry with zero-decimal start token for the formatting scenario. -/
def envFmt : ResolverEnv :=
  { envResolverStub with tokensDecimals := fun _ _ => some 0 }

/-- paramsFmt after one application of _format_size_info. -/
def paramsFmtOut : Params :=
  { paramsFmt with
    size_delta := some (10 ^ 30 : ℤ)
    initial_collateral_delta := some (3 : ℚ) }

/-- Token state with ample balance and allowance on every token. -/
def tokenStateRich : TokenState :=
  { balanceOf := fun _ => 100
    allowanceOf := fun _ => 100 }

/-- The integer written into initial_collateral_delta by _format_size_info:
int(initial_collateral_delta * 10^decimals), as a rational. -/
def scaled_icd (icd : ℚ) (d : ℕ) : ℚ := ((pyInt (icd * (10 : ℚ) ^ d) : ℤ) : ℚ)

/-- The integer written into size_delta by _format_size_info:
int(size_delta_usd * 10^30). -/
def scaled_usd (usd : ℚ) : ℤ := pyInt (usd * (10 : ℚ) ^ (30 : ℕ))

/-- Helper: every raw transaction recorded in a submit_transaction trace is
the one assembled by build_raw_txn. -/
theorem builtRaw_mem_trace (cls : OrderClass) (debug_mode : Bool) (v : ℤ) (f : ℚ)
    (env : SubmitEnv) (tr : List SubmitAction) (tx : TxFields)
    (h : submit_transaction cls debug_mode v f env = PyResult.returns tr)
    (hmem : SubmitAction.builtRaw tx ∈ tr) :
    tx = build_raw_txn cls v f env := by
  unfold submit_transaction at h
  rcases hb : env.buildFail with _ | msg <;> rw [hb] at h
  · rcases debug_mode with _ | _
    · rcases hs : env.signFail with _ | msg <;> rw [hs] at h
      · rcases hd : env.sendFail with _ | msg <;> rw [hd] at h <;>
          simp only [PyResult.returns.injEq] at h <;> subst h <;>
          simp_all
      · simp only [PyResult.returns.injEq] at h; subst h; simp_all
    · simp only [if_true] at h
      simp only [PyResult.returns.injEq] at h; subst h; simp_all
  · simp only [PyResult.returns.injEq] at h; subst h; simp_all

/-- C1 counterexample: in a run where the gateway rejects the broadcast
(send raises "nonce too low"), Order._submit_transaction does not surface
the error: it logs it and returns normally, indistinguishable from a
successful call. -/
theorem submit_error_swallowed_counterexample :
    envSendRejected.sendFail = some "nonce too low" ∧
    submit_transaction OrderClass.increaseOrder false 0 5 envSendRejected =
      PyResult.returns [SubmitAction.builtRaw txSendRejected,
        SubmitAction.signedTx txSendRejected,
        SubmitAction.errorLogged "nonce too low"] := by
  constructor
  · rfl
  · rfl

/-- C1 amended: every error raised while building, signing or sending the
multicall transaction is caught inside Order._submit_transaction, logged,
and swallowed; the method always returns normally and never surfaces the
error to the caller. -/
theorem submit_swallows_all_errors :
    (∀ (cls : OrderClass) (debug_mode : Bool) (v : ℤ) (f : ℚ) (env : SubmitEnv),
      ∃ tr, submit_transaction cls debug_mode v f env = PyResult.returns tr) ∧
    (∀ (cls : OrderClass) (v : ℤ) (f : ℚ) (env : SubmitEnv) (msg : String),
      env.buildFail = none → env.signFail = none → env.sendFail = some msg →
      submit_transaction cls false v f env =
        PyResult.returns [SubmitAction.builtRaw (build_raw_txn cls v f env),
          SubmitAction.signedTx (build_raw_txn cls v f env),
          SubmitAction.errorLogged msg]) := by
  constructor
  · intro cls debug_mode v f env
    exact ⟨_, rfl⟩
  · intro cls v f env msg hb hs hd
    simp [submit_transaction, hb, hs, hd]

theorem submit_swallows_all_errors_witness :
    submit_transaction OrderClass.decreaseOrder false 0 5 envSendRejected =
      PyResult.returns
        [SubmitAction.builtRaw (build_raw_txn OrderClass.decreaseOrder 0 5 envSendRejected),
         SubmitAction.signedTx (build_raw_txn OrderClass.decreaseOrder 0 5 envSendRejected),
         SubmitAction.errorLogged "nonce too low"] :=
  submit_swallows_all_errors.2 OrderClass.decreaseOrder 0 5 envSendRejected
    "nonce too low" rfl rfl rfl

/-- C2 counterexample: with debug_mode set and every collaborator call able
to succeed, Order._submit_transaction stops after building the raw
transaction: no signing step occurs, so no signed transaction is produced
in simulate mode. -/
theorem debug_mode_no_signing_counterexample :
    envAllOk.signFail = none ∧
    submit_transaction OrderClass.increaseOrder true 0 5 envAllOk =
      PyResult.returns [SubmitAction.builtRaw txAllOk] ∧
    SubmitAction.signedTx txAllOk ∉ [SubmitAction.builtRaw txAllOk] := by
  refine ⟨rfl, rfl, by decide⟩

/-- C2 amended: with debug_mode set the pipeline builds the raw transaction
with exactly the fields live mode would use and stops strictly before
signing: neither the signing step nor the raw-transaction send is invoked,
and the built transaction also appears (bit-identical) in the live-mode
trace. -/
theorem debug_mode_stops_before_signing
    (cls : OrderClass) (v : ℤ) (f : ℚ) (env : SubmitEnv)
    (hb : env.buildFail = none) :
    submit_transaction cls true v f env =
      PyResult.returns [SubmitAction.builtRaw (build_raw_txn cls v f env)] ∧
    (∀ tx, SubmitAction.signedTx tx ∉ [SubmitAction.builtRaw (build_raw_txn cls v f env)] ∧
           SubmitAction.sentRaw tx ∉ [SubmitAction.builtRaw (build_raw_txn cls v f env)]) ∧
    (∀ tr, submit_transaction cls false v f env = PyResult.returns tr →
      SubmitAction.builtRaw (build_raw_txn cls v f env) ∈ tr) := by
  refine ⟨by simp [submit_transaction, hb], by simp, ?_⟩
  intro tr htr
  unfold submit_transaction at htr
  rw [hb] at htr
  rcases hs : env.signFail with _ | msg <;> rw [hs] at htr
  · rcases hd : env.sendFail with _ | msg <;> rw [hd] at htr <;>
      simp only [PyResult.returns.injEq] at htr <;> subst htr <;> simp
  · simp only [PyResult.returns.injEq] at htr; subst htr; simp

theorem debug_mode_stops_before_signing_witness :
    submit_transaction OrderClass.increaseOrder true 0 5 envAllOk =
      PyResult.returns
        [SubmitAction.builtRaw (build_raw_txn OrderClass.increaseOrder 0 5 envAllOk)] :=
  (debug_mode_stops_before_signing OrderClass.increaseOrder 0 5 envAllOk rfl).1

/-- C8: for each supported order kind the call-gas ceiling placed on the
transaction envelope is twice the kind-specific base estimator value from
the Gas Limit Table, and the table keys are "increase_order" and
"decrease_order" respectively. -/
theorem gas_ceiling_is_double_base (cls : OrderClass) (debug_mode : Bool)
    (v : ℤ) (f : ℚ) (env : SubmitEnv) :
    (build_raw_txn cls v f env).gas = 2 * env.gasTable (determine_gas_limits_key cls) ∧
    (∀ tr tx, submit_transaction cls debug_mode v f env = PyResult.returns tr →
      SubmitAction.builtRaw tx ∈ tr →
      tx.gas = 2 * env.gasTable (determine_gas_limits_key cls)) ∧
    determine_gas_limits_key OrderClass.increaseOrder = "increase_order" ∧
    determine_gas_limits_key OrderClass.decreaseOrder = "decrease_order" := by
  refine ⟨by simp [build_raw_txn, two_mul], ?_, rfl, rfl⟩
  intro tr tx htr hmem
  rw [builtRaw_mem_trace cls debug_mode v f env tr tx htr hmem]
  simp [build_raw_txn, two_mul]

/-- C5: for a fixed median price P and slippage fraction s, the
slippage-adjusted price computed by Order._get_prices is P(1+s) for
open+long, P(1−s) for open+short, P(1−s) for close+long and P(1+s) for
close+short. -/
theorem slippage_direction_law (P s : ℚ) :
    slippage_adjusted true false true P s = P * (1 + s) ∧
    slippage_adjusted true false false P s = P * (1 - s) ∧
    slippage_adjusted false true true P s = P * (1 - s) ∧
    slippage_adjusted false true false P s = P * (1 + s) := by
  refine ⟨?_, ?_, ?_, ?_⟩ <;> simp [slippage_adjusted]

/-- C3 counterexample: for a swap order (neither open nor close) with ask 6
and bid 4, Order._get_prices returns slippage-adjusted price 0, while the
median is 5; the adjusted price does not equal the median. -/
theorem swap_price_not_median_counterexample :
    (get_prices 18 6 4 true (3/1000) false false).2.1 = 0 ∧
    median_of_two 6 4 = 5 ∧
    (((get_prices 18 6 4 true (3/1000) false false).2.1 : ℚ) ≠ median_of_two 6 4) := by
  refine ⟨?_, ?_, ?_⟩ <;>
    norm_num [get_prices, median_of_two, slippage_adjusted, pyInt, acceptable_price_usd]

/-- C3 amended: for every swap order (intent neither open nor close)
Order._get_prices applies no slippage and returns adjusted price 0 and
acceptable price 0; the median is returned only as the separate reference
price. -/
theorem swap_adjusted_price_zero (decimals : ℤ) (max_price min_price slippage_percent : ℚ)
    (is_long : Bool) :
    get_prices decimals max_price min_price is_long slippage_percent false false =
      (median_of_two max_price min_price, 0, 0) := by
  norm_num [get_prices, slippage_adjusted, pyInt, acceptable_price_usd]

/-- C4 amended: when the token decimal count is at least PRECISION = 30 the
acceptable-price computation of Order._get_prices is carried out in exact
integer arithmetic and equals floor(p) · 10^(d − 30) for every non-negative
adjusted price p. (For d < 30 Python evaluates the scale factor in binary
floating point; see the counterexample.) -/
theorem acceptable_price_exact_for_large_decimals (d : ℤ) (p : ℚ)
    (hd : PRECISION ≤ d) (hp : 0 ≤ p) :
    acceptable_price_usd d (pyInt p) = ((⌊p⌋ * 10 ^ (d - PRECISION).toNat : ℤ) : ℚ) := by
  have h0 : (0 : ℤ) ≤ d - PRECISION := by omega
  unfold acceptable_price_usd pyInt
  rw [if_pos hp]
  push_cast
  rw [← zpow_natCast (10 : ℚ) (d - PRECISION).toNat, Int.toNat_of_nonneg h0]

theorem acceptable_price_exact_for_large_decimals_witness :
    PRECISION ≤ (31 : ℤ) ∧ (0 : ℚ) ≤ 5/2 ∧
    acceptable_price_usd 31 (pyInt (5/2)) =
      ((⌊(5/2 : ℚ)⌋ * 10 ^ ((31 : ℤ) - PRECISION).toNat : ℤ) : ℚ) :=
  ⟨by norm_num [PRECISION], by norm_num,
    acceptable_price_exact_for_large_decimals 31 (5/2) (by norm_num [PRECISION]) (by norm_num)⟩

/-- C4 counterexample: with token decimals 18 and truncated adjusted price 3,
the value the claim requires, 3 · 10^(18−30) = 3/10^12, is not representable
as any binary floating-point number m · 2^e. Since for decimals < 30 the
Python expression int(slippage) * 10 ** (decimals - PRECISION) is evaluated
in IEEE-754 floating point, the returned value cannot equal
floor(p) · 10^(d−30) exactly. -/
theorem acceptable_price_inexact_counterexample :
    ¬ IsFloatRepresentable (acceptable_price_usd 18 3) := by
  have hval : acceptable_price_usd 18 3 = 3 / 10 ^ 12 := by
    have h12 : (18 : ℤ) - PRECISION = -12 := by norm_num [PRECISION]
    rw [acceptable_price_usd, h12, zpow_neg]
    norm_num
  rintro ⟨m, e, h⟩
  rw [hval] at h
  rcases le_or_lt 0 e with he | he
  · lift e to ℕ using he with n
    rw [zpow_natCast] at h
    have h2 : (3 : ℚ) = m * 2 ^ n * 10 ^ 12 := by
      field_simp at h
      linarith
    have h3 : (3 : ℤ) = m * 2 ^ n * 10 ^ 12 := by exact_mod_cast h2
    have h5 : (5 : ℤ) ∣ 3 := by
      refine ⟨m * 2 ^ n * (2 * 10 ^ 11), ?_⟩
      rw [h3]; ring
    norm_num at h5
  · have hb : (0 : ℤ) ≤ -e := by omega
    have he' : e = -((-e).toNat : ℤ) := by
      rw [Int.toNat_of_nonneg hb]; ring
    rw [he', zpow_neg, zpow_natCast] at h
    have h2 : (3 : ℚ) * 2 ^ (-e).toNat = m * 10 ^ 12 := by
      field_simp at h
      linarith
    have h3 : (3 : ℤ) * 2 ^ (-e).toNat = m * 10 ^ 12 := by exact_mod_cast h2
    have h5 : (5 : ℤ) ∣ 3 * 2 ^ (-e).toNat := by
      refine ⟨m * (2 * 10 ^ 11), ?_⟩
      rw [h3]; ring
    have hp5 : Prime (5 : ℤ) := by norm_num
    rcases hp5.dvd_mul.mp h5 with h' | h'
    · norm_num at h'
    · have h2' := hp5.dvd_of_dvd_pow h'
      norm_num at h2'

/-- Helper: Python int() of an integer-valued rational is that integer. -/
theorem pyInt_intCast (m : ℤ) : pyInt (m : ℚ) = m := by
  unfold pyInt
  split
  · exact Int.floor_intCast m
  · exact Int.ceil_intCast m

/-- Helper: scaling an integer-valued rational by a non-negative power of
ten and truncating is exact. -/
theorem pyInt_int_mul_pow (n : ℤ) (d : ℕ) :
    pyInt ((n : ℚ) * (10 : ℚ) ^ d) = n * 10 ^ d := by
  have hcast : ((n : ℚ) * (10 : ℚ) ^ d) = ((n * 10 ^ d : ℤ) : ℚ) := by push_cast; ring
  rw [hcast, pyInt_intCast]

/-- Helper: _format_size_info can only raise KeyError-style failures, never
the collateral-floor rejection. -/
theorem format_size_info_no_collateral_error (env : ResolverEnv) (kind : OrderKind)
    (p : Params) :
    format_size_info env kind p ≠ Except.error ResolveErr.collateralTooLow := by
  intro h
  by_cases hk : kind = OrderKind.swap <;>
    rcases hc : p.chain with _ | chain <;>
    rcases hs : p.start_token_address with _ | start <;>
    rcases hi : p.initial_collateral_delta with _ | icd <;>
    rcases hu : p.size_delta_usd with _ | usd <;>
    simp [format_size_info, hk, hc, hs, hi, hu] at h <;>
    rcases hd : env.tokensDecimals chain start with _ | d <;>
    simp [hd] at h

/-- C7: a request dictionary that omits the chain field always fails with
the missing-chain error — for every order kind, every combination of other
fields, and every behaviour of the registries, oracle and derivation
methods — because chain heads every required-key list and its handler
raises before any other derivation, validation or scaling step runs. -/
theorem missing_chain_always_fails (env : ResolverEnv) (kind : OrderKind) (p : Params)
    (h : p.chain = none) :
    process_parameters_dictionary env kind p = Except.error ResolveErr.missingChain := by
  have hhead : ∃ rest, (required_keys kind).filter (fun k => !(has_key p k)) =
      FieldKey.chain :: rest := by
    cases kind <;> simp only [required_keys] <;>
      exact ⟨_, List.filter_cons_of_pos (by simp [has_key, h])⟩
  obtain ⟨rest, hr⟩ := hhead
  have hmiss : resolve_missing env kind p = Except.error ResolveErr.missingChain := by
    rw [resolve_missing, hr]
    rfl
  unfold process_parameters_dictionary pre_collateral_stages
  rw [hmiss]

theorem missing_chain_always_fails_witness :
    paramsEmpty.chain = none ∧
    process_parameters_dictionary envResolverStub OrderKind.increase paramsEmpty =
      Except.error ResolveErr.missingChain :=
  ⟨rfl, missing_chain_always_fails envResolverStub OrderKind.increase paramsEmpty rfl⟩

/-- C6: for increase orders the parser computes the collateral USD value as
the median of the oracle bid/ask scaled by 10^(token_decimals − 30) times
the collateral delta; the pipeline (which performs reads only, no on-chain
write) rejects with the collateral-floor error exactly when that value is
below 2 USD, and every successfully resolved increase order has collateral
USD ≥ 2. -/
theorem increase_collateral_floor :
    (∀ (env : ResolverEnv) (chain start : String) (icd maxP minP : ℚ) (d : ℕ) (p : Params),
      p.chain = some chain → p.start_token_address = some start →
      p.initial_collateral_delta = some icd →
      env.oracleMax chain start = some maxP → env.oracleMin chain start = some minP →
      env.tokensDecimals chain start = some d →
      calculate_initial_collateral_usd env p =
        Except.ok (median_of_two maxP minP * (10 : ℚ) ^ ((d : ℤ) - 30) * icd)) ∧
    (∀ (env : ResolverEnv) (p p2 : Params) (u : ℚ),
      pre_collateral_stages env OrderKind.increase p = Except.ok p2 →
      calculate_initial_collateral_usd env p2 = Except.ok u →
      (process_parameters_dictionary env OrderKind.increase p =
          Except.error ResolveErr.collateralTooLow ↔ u < 2)) ∧
    (∀ (env : ResolverEnv) (p out : Params),
      process_parameters_dictionary env OrderKind.increase p = Except.ok out →
      ∃ p2 u, pre_collateral_stages env OrderKind.increase p = Except.ok p2 ∧
        calculate_initial_collateral_usd env p2 = Except.ok u ∧ 2 ≤ u) := by
  refine ⟨?_, ?_, ?_⟩
  · intro env chain start icd maxP minP d p hc hs hi hmax hmin hd
    simp [calculate_initial_collateral_usd, hc, hs, hi, hmax, hmin, hd]
  · intro env p p2 u hpre hu
    by_cases h2 : u < 2
    · simp [process_parameters_dictionary, hpre, collateral_gate, hu, h2]
    · simp [process_parameters_dictionary, hpre, collateral_gate, hu, h2]
      exact format_size_info_no_collateral_error env OrderKind.increase p2
  · intro env p out h
    unfold process_parameters_dictionary at h
    rcases hpre : pre_collateral_stages env OrderKind.increase p with e | p2 <;>
      rw [hpre] at h
    · simp at h
    · rcases hu : calculate_initial_collateral_usd env p2 with e | u
      · simp [collateral_gate, hu] at h
      · by_cases h2 : u < 2
        · simp [collateral_gate, hu, h2] at h
        · exact ⟨p2, u, rfl, hu, le_of_not_lt h2⟩

theorem increase_collateral_floor_witness :
    pre_collateral_stages envLowCollateral OrderKind.increase paramsLowCollateral =
      Except.ok paramsLowCollateral ∧
    calculate_initial_collateral_usd envLowCollateral paramsLowCollateral =
      Except.ok 1 ∧
    process_parameters_dictionary envLowCollateral OrderKind.increase paramsLowCollateral =
      Except.error ResolveErr.collateralTooLow := by
  have hpre : pre_collateral_stages envLowCollateral OrderKind.increase paramsLowCollateral =
      Except.ok paramsLowCollateral := by rfl
  have hcalc : calculate_initial_collateral_usd envLowCollateral paramsLowCollateral =
      Except.ok 1 := by
    norm_num [calculate_initial_collateral_usd, envLowCollateral, envResolverStub,
      paramsLowCollateral, median_of_two]
  exact ⟨hpre, hcalc,
    (increase_collateral_floor.2.1 envLowCollateral paramsLowCollateral paramsLowCollateral
      1 hpre hcalc).mpr (by norm_num)⟩

/-- Helper: full characterisation of a successful _format_size_info run. -/
theorem format_size_info_ok_elim (env : ResolverEnv) (kind : OrderKind) (p out : Params)
    (h : format_size_info env kind p = Except.ok out) :
    ∃ (chain start : String) (d : ℕ) (icd : ℚ),
      p.chain = some chain ∧ p.start_token_address = some start ∧
      env.tokensDecimals chain start = some d ∧
      p.initial_collateral_delta = some icd ∧
      ((kind = OrderKind.swap ∧
        out = { p with initial_collateral_delta := some (scaled_icd icd d) }) ∨
       (kind ≠ OrderKind.swap ∧ ∃ usd, p.size_delta_usd = some usd ∧
        out = { p with size_delta := some (scaled_usd usd), initial_collateral_delta := some (scaled_icd icd d) })) := by
  by_cases hk : kind = OrderKind.swap
  · rcases hc : p.chain with _ | chain
    · simp [format_size_info, hk, hc] at h
    · rcases hs : p.start_token_address with _ | start
      · simp [format_size_info, hk, hc, hs] at h
      · rcases hd : env.tokensDecimals chain start with _ | d
        · simp [format_size_info, hk, hc, hs, hd] at h
        · rcases hi : p.initial_collateral_delta with _ | icd
          · simp [format_size_info, hk, hc, hs, hd, hi] at h
          · refine ⟨chain, start, d, icd, rfl, rfl, hd, rfl, Or.inl ⟨hk, ?_⟩⟩
            simp [format_size_info, hk, hc, hs, hd, hi] at h
            exact h.symm
  · rcases hu : p.size_delta_usd with _ | usd
    · simp [format_size_info, hk, hu] at h
    · rcases hc : p.chain with _ | chain
      · simp [format_size_info, hk, hu, hc] at h
      · rcases hs : p.start_token_address with _ | start
        · simp [format_size_info, hk, hu, hc, hs] at h
        · rcases hd : env.tokensDecimals chain start with _ | d
          · simp [format_size_info, hk, hu, hc, hs, hd] at h
          · rcases hi : p.initial_collateral_delta with _ | icd
            · simp [format_size_info, hk, hu, hc, hs, hd, hi] at h
            · refine ⟨chain, start, d, icd, rfl, rfl, hd, rfl, Or.inr ⟨hk, usd, rfl, ?_⟩⟩
              simp [format_size_info, hk, hu, hc, hs, hd, hi] at h
              exact h.symm

/-- Helper: applying _format_size_info to a dictionary whose collateral
field already holds an integer value scales that integer by 10^decimals
again. -/
theorem format_size_info_reapply (env : ResolverEnv) (kind : OrderKind)
    (out out2 : Params) (chain start : String) (d : ℕ) (icd : ℚ)
    (hc : out.chain = some chain) (hs : out.start_token_address = some start)
    (hd : env.tokensDecimals chain start = some d)
    (hi : out.initial_collateral_delta = some (scaled_icd icd d))
    (h2 : format_size_info env kind out = Except.ok out2) :
    out2.initial_collateral_delta = some (scaled_icd icd d * (10 : ℚ) ^ d) := by
  obtain ⟨chain2, start2, d2, icd2, hc2, hs2, hd2, hi2, hcase2⟩ :=
    format_size_info_ok_elim env kind out out2 h2
  rw [hc] at hc2
  obtain rfl : chain = chain2 := Option.some.inj hc2
  rw [hs] at hs2
  obtain rfl : start = start2 := Option.some.inj hs2
  rw [hd] at hd2
  obtain rfl : d = d2 := Option.some.inj hd2
  rw [hi] at hi2
  obtain rfl : scaled_icd icd d = icd2 := Option.some.inj hi2
  have hval : scaled_icd (scaled_icd icd d) d = scaled_icd icd d * (10 : ℚ) ^ d := by
    unfold scaled_icd
    rw [pyInt_int_mul_pow]
    push_cast
    ring
  rcases hcase2 with ⟨hsw, hout2⟩ | ⟨hsw, usd2, hu2, hout2⟩ <;> subst hout2 <;>
    simp [hval]

/-- C10: process_parameters_dictionary hands back the parameters dictionary
produced by the final _format_size_info step, and _format_size_info mutates
only two fields of the dictionary it is given: for non-swap kinds
size_delta becomes int(size_delta_usd · 10^30), and for every kind
initial_collateral_delta is overwritten with
int(initial_collateral_delta · 10^token_decimals) of the start token.
Because the overwrite is in place, the operation is not idempotent:
a second application scales initial_collateral_delta by 10^token_decimals
again. -/
theorem format_in_place_and_not_idempotent :
    (∀ (env : ResolverEnv) (kind : OrderKind) (p out : Params),
      process_parameters_dictionary env kind p = Except.ok out →
      ∃ p3, format_size_info env kind p3 = Except.ok out) ∧
    (∀ (env : ResolverEnv) (kind : OrderKind) (p out : Params),
      format_size_info env kind p = Except.ok out →
      ∃ (chain start : String) (d : ℕ) (icd : ℚ),
        p.chain = some chain ∧ p.start_token_address = some start ∧
        env.tokensDecimals chain start = some d ∧
        p.initial_collateral_delta = some icd ∧
        out.initial_collateral_delta = some (scaled_icd icd d) ∧
        (kind ≠ OrderKind.swap → ∃ usd, p.size_delta_usd = some usd ∧
          out.size_delta = some (scaled_usd usd)) ∧
        (kind = OrderKind.swap → out.size_delta = p.size_delta) ∧
        out = { p with size_delta := out.size_delta, initial_collateral_delta := out.initial_collateral_delta } ∧
        (∀ out2, format_size_info env kind out = Except.ok out2 →
          out2.initial_collateral_delta = some (scaled_icd icd d * (10 : ℚ) ^ d))) := by
  constructor
  · intro env kind p out h
    unfold process_parameters_dictionary at h
    rcases hpre : pre_collateral_stages env kind p with e | p2 <;>
      simp only [hpre] at h
    · simp at h
    · rcases hg : (if kind = OrderKind.increase then collateral_gate env p2
          else Except.ok p2) with e | p3 <;> simp only [hg] at h
      · simp at h
      · exact ⟨p3, h⟩
  · intro env kind p out h
    obtain ⟨chain, start, d, icd, hc, hs, hd, hi, hcase⟩ :=
      format_size_info_ok_elim env kind p out h
    rcases hcase with ⟨hk, hout⟩ | ⟨hk, usd, hu, hout⟩
    · have hic : out.initial_collateral_delta = some (scaled_icd icd d) := by
        rw [hout]
      refine ⟨chain, start, d, icd, hc, hs, hd, hi, hic, ?_, ?_, ?_, ?_⟩
      · intro hne
        exact absurd hk hne
      · intro hsw
        rw [hout]
      · rw [hout]
      · intro out2 h2
        exact format_size_info_reapply env kind out out2 chain start d icd
          (by rw [hout]; exact hc) (by rw [hout]; exact hs) hd hic h2
    · have hic : out.initial_collateral_delta = some (scaled_icd icd d) := by
        rw [hout]
      refine ⟨chain, start, d, icd, hc, hs, hd, hi, hic, ?_, ?_, ?_, ?_⟩
      · intro hne
        exact ⟨usd, hu, by rw [hout]⟩
      · intro hsw
        exact absurd hsw hk
      · rw [hout]
      · intro out2 h2
        exact format_size_info_reapply env kind out out2 chain start d icd
          (by rw [hout]; exact hc) (by rw [hout]; exact hs) hd hic h2

theorem format_in_place_and_not_idempotent_witness :
    format_size_info envFmt OrderKind.increase paramsFmt = Except.ok paramsFmtOut ∧
    (∃ (chain start : String) (d : ℕ) (icd : ℚ),
      paramsFmt.chain = some chain ∧ paramsFmt.start_token_address = some start ∧
      envFmt.tokensDecimals chain start = some d ∧
      paramsFmt.initial_collateral_delta = some icd ∧
      paramsFmtOut.initial_collateral_delta = some (scaled_icd icd d) ∧
      (OrderKind.increase ≠ OrderKind.swap → ∃ usd, paramsFmt.size_delta_usd = some usd ∧
        paramsFmtOut.size_delta = some (scaled_usd usd)) ∧
      (OrderKind.increase = OrderKind.swap → paramsFmtOut.size_delta = paramsFmt.size_delta) ∧
      paramsFmtOut = { paramsFmt with size_delta := paramsFmtOut.size_delta, initial_collateral_delta := paramsFmtOut.initial_collateral_delta } ∧
      (∀ out2, format_size_info envFmt OrderKind.increase paramsFmtOut = Except.ok out2 →
        out2.initial_collateral_delta = some (scaled_icd icd d * (10 : ℚ) ^ d))) := by
  have hA : pyInt ((10 : ℚ) ^ (30 : ℕ)) = 10 ^ 30 := by
    simpa using pyInt_int_mul_pow 1 30
  have hB : ((pyInt ((3 : ℚ)) : ℤ) : ℚ) = 3 := by
    rw [show ((3 : ℚ)) = (((3 : ℤ)) : ℚ) by norm_num, pyInt_intCast]
  have hfmt : format_size_info envFmt OrderKind.increase paramsFmt =
      Except.ok paramsFmtOut := by
    simp [format_size_info, envFmt, envResolverStub, paramsFmt, paramsFmtOut, hA, hB]
  exact ⟨hfmt, format_in_place_and_not_idempotent.2 envFmt OrderKind.increase
    paramsFmt paramsFmtOut hfmt⟩

/-- C9: when the owner's balance covers the required amount and the current
allowance already covers it, check_if_approved returns success with no
state change and no approval transaction; consequently, with approval
enabled, two successive calls with identical inputs submit at most one
approval in total. -/
theorem allowance_noop_and_idempotent :
    (∀ (st : TokenState) (token : String) (amount : ℤ) (approve : Bool),
      amount ≤ st.balanceOf (remap_token token) →
      amount ≤ st.allowanceOf (remap_token token) →
      check_if_approved st token amount approve = Except.ok (st, 0)) ∧
    (∀ (st st1 st2 : TokenState) (token : String) (amount : ℤ) (n1 n2 : ℕ),
      check_if_approved st token amount true = Except.ok (st1, n1) →
      check_if_approved st1 token amount true = Except.ok (st2, n2) →
      n1 + n2 ≤ 1) := by
  constructor
  · intro st token amount approve hb ha
    simp only [check_if_approved]
    rw [if_neg (not_lt.mpr hb), if_neg (not_lt.mpr ha)]
  · intro st st1 st2 token amount n1 n2 h1 h2
    simp only [check_if_approved] at h1 h2
    by_cases hb : st.balanceOf (remap_token token) < amount
    · rw [if_pos hb] at h1
      simp at h1
    · rw [if_neg hb] at h1
      by_cases ha : st.allowanceOf (remap_token token) < amount
      · rw [if_pos ha, if_true] at h1
        rw [Except.ok.injEq, Prod.mk.injEq] at h1
        obtain ⟨hst1, hn1⟩ := h1
        subst hst1
        subst hn1
        rw [if_neg hb] at h2
        rw [if_neg (by simp)] at h2
        rw [Except.ok.injEq, Prod.mk.injEq] at h2
        obtain ⟨hst2, hn2⟩ := h2
        subst hn2
        norm_num
      · rw [if_neg ha] at h1
        rw [Except.ok.injEq, Prod.mk.injEq] at h1
        obtain ⟨hst1, hn1⟩ := h1
        subst hst1
        subst hn1
        rw [if_neg hb, if_neg ha] at h2
        rw [Except.ok.injEq, Prod.mk.injEq] at h2
        obtain ⟨hst2, hn2⟩ := h2
        subst hn2
        norm_num

theorem allowance_noop_and_idempotent_witness :
    (5 : ℤ) ≤ tokenStateRich.balanceOf (remap_token "0xT") ∧
    (5 : ℤ) ≤ tokenStateRich.allowanceOf (remap_token "0xT") ∧
    check_if_approved tokenStateRich "0xT" 5 true = Except.ok (tokenStateRich, 0) :=
  ⟨by norm_num [tokenStateRich], by norm_num [tokenStateRich],
    allowance_noop_and_idempotent.1 tokenStateRich "0xT" 5 true
      (by norm_num [tokenStateRich]) (by norm_num [tokenStateRich])⟩

end Gmx
